import Mathlib

/-!
# Verification of the SQA task-manager core

A shallow embedding of the task-management UI logic:

* `src/src/components/TaskForm/TaskForm.tsx` — field validation
  (`validateField`, `validateForm`), the submit protocol (`handleSubmit`),
  the blur/change handlers, and the per-field error rendering guard.
* `src/src/app/page.tsx` / `src/src/components/TestRunner/TestRunner.tsx` —
  the container's task-collection operations (`handleCreateTask`,
  `handleToggleComplete`, `handleDeleteTask`).
* `src/src/components/TestRunner/TestRunner.tsx` — the sequential
  "run all" loop with per-scenario exception isolation (`runAllTests`).

Strings are Lean `String`s (character counts stand in for JS string
lengths), `Date` values are `Nat` timestamps, and each React event handler
becomes a pure function from the pre-state to the post-state.  The
`flushSync` block in `handleSubmit` applies the touched-set and error-set
updates in one visible step, so the handler is modelled as a single
transition producing one post-state.
-/

namespace Sqa

/-- Form field values, from `TaskFormData` in `src/src/types/Task.ts`.
The priority select reports a raw string, validated by `validateField`. -/
structure TaskFormData where
  title : String
  description : String
  priority : String
  deriving Repr, DecidableEq

/-- Per-field error mapping, from `TaskFormErrors` in `src/src/types/Task.ts`;
`none` models an `undefined` entry. -/
structure TaskFormErrors where
  title : Option String := none
  description : Option String := none
  priority : Option String := none
  deriving Repr, DecidableEq

/-- The `touched` record of `TaskForm`: one flag per field, initially absent
(falsy), hence `false` by default. -/
structure TouchedFlags where
  title : Bool := false
  description : Bool := false
  priority : Bool := false
  deriving Repr, DecidableEq

/-- The three form field names (`keyof TaskFormData`). -/
inductive FieldName
  | title
  | description
  | priority
  deriving Repr, DecidableEq

/-- JS truthiness of an optional string: `undefined` and `""` are falsy,
every other string is truthy. -/
def strTruthy : Option String → Bool
  | none => false
  | some s => !(s == "")

/-- JS `String.prototype.trim`: strips leading and trailing whitespace.
Defined over the character list so that it computes by structural
recursion. -/
def jsTrim (s : String) : String :=
  ⟨((s.data.dropWhile Char.isWhitespace).reverse.dropWhile Char.isWhitespace).reverse⟩

/-- `validateField` from `TaskForm.tsx` (lines 28–53): the per-field rules,
checked in source order with the first failing rule's message reported. -/
def validateField : FieldName → String → Option String
  | .title, value =>
    if jsTrim value == "" then some "Title is required"
    else if (jsTrim value).length < 3 then some "Title must be at least 3 characters"
    else if (jsTrim value).length > 100 then some "Title must be less than 100 characters"
    else none
  | .description, value =>
    if value.length > 500 then some "Description must be less than 500 characters"
    else none
  | .priority, value =>
    if value == "low" || value == "medium" || value == "high" then none
    else some "Please select a valid priority"

/-- Result of `validateForm`: the validity flag together with the fresh
error mapping. -/
structure ValidationResult where
  isValid : Bool
  errors : TaskFormErrors
  deriving Repr, DecidableEq

/-- `validateForm` from `TaskForm.tsx` (lines 55–65): validates all three
fields and reports validity as the absence of any truthy error message. -/
def validateForm (formData : TaskFormData) : ValidationResult :=
  let newErrors : TaskFormErrors :=
    { title := validateField .title formData.title
      description := validateField .description formData.description
      priority := validateField .priority formData.priority }
  let hasErrors := strTruthy newErrors.title || strTruthy newErrors.description ||
    strTruthy newErrors.priority
  { isValid := !hasErrors, errors := newErrors }

/-- C1: title validation yields "required" iff the trimmed title is empty,
"too short" iff it is nonempty with trimmed length < 3, "too long" iff the
trimmed length exceeds 100, and no error otherwise.  The four cases are
characterised by mutually exclusive conditions, so at most one error holds
and the first-failing-rule order is respected. -/
theorem validateField_title_spec (t : String) :
    (validateField .title t = some "Title is required" ↔ jsTrim t = "") ∧
    (validateField .title t = some "Title must be at least 3 characters" ↔
      jsTrim t ≠ "" ∧ (jsTrim t).length < 3) ∧
    (validateField .title t = some "Title must be less than 100 characters" ↔
      (jsTrim t).length > 100) ∧
    (validateField .title t = none ↔
      jsTrim t ≠ "" ∧ 3 ≤ (jsTrim t).length ∧ (jsTrim t).length ≤ 100) := by
  unfold validateField
  by_cases h0 : jsTrim t = "" <;>
    by_cases h3 : (jsTrim t).length < 3 <;>
      by_cases h100 : (jsTrim t).length > 100 <;>
        simp [h0, h3, h100] <;> omega

/-- The full transient form state owned by the engine: field values, error
mapping and touched flags (the three `useState` cells of `TaskForm`). -/
structure FormState where
  formData : TaskFormData
  errors : TaskFormErrors
  touched : TouchedFlags
  deriving Repr, DecidableEq

/-- `initialData.title || ''` style seeding: a falsy seed (absent or empty)
falls back to the default. -/
def orDefault (o : Option String) (dflt : String) : String :=
  match o with
  | none => dflt
  | some s => if s == "" then dflt else s

/-- Optional seed values (`initialData : Partial<TaskFormData>`). -/
structure InitialData where
  title : Option String := none
  description : Option String := none
  priority : Option String := none
  deriving Repr, DecidableEq

/-- The initial `useState` values of `TaskForm` (lines 11–18). -/
def initFormState (initialData : InitialData) : FormState :=
  { formData :=
      { title := orDefault initialData.title ""
        description := orDefault initialData.description ""
        priority := orDefault initialData.priority "medium" }
    errors := {}
    touched := {} }

/-- Field accessor for the error mapping. -/
def getError (e : TaskFormErrors) : FieldName → Option String
  | .title => e.title
  | .description => e.description
  | .priority => e.priority

/-- Field update for the error mapping. -/
def setError (e : TaskFormErrors) : FieldName → Option String → TaskFormErrors
  | .title, v => { e with title := v }
  | .description, v => { e with description := v }
  | .priority, v => { e with priority := v }

/-- Field accessor for the touched flags. -/
def getTouched (t : TouchedFlags) : FieldName → Bool
  | .title => t.title
  | .description => t.description
  | .priority => t.priority

/-- Field update for the touched flags. -/
def setTouchedFlag (t : TouchedFlags) : FieldName → Bool → TouchedFlags
  | .title, v => { t with title := v }
  | .description, v => { t with description := v }
  | .priority, v => { t with priority := v }

/-- Field update for the form data record. -/
def setField (d : TaskFormData) : FieldName → String → TaskFormData
  | .title, v => { d with title := v }
  | .description, v => { d with description := v }
  | .priority, v => { d with priority := v }

/-- `handleInputChange` from `TaskForm.tsx` (lines 67–85): stores the new
value and, only when the field is already touched, revalidates it live. -/
def handleInputChange (s : FormState) (name : FieldName) (value : String) : FormState :=
  let s1 := { s with formData := setField s.formData name value }
  if getTouched s.touched name then
    { s1 with errors := setError s1.errors name (validateField name value) }
  else s1

/-- `handleBlur` from `TaskForm.tsx` (lines 87–101): marks the field touched
and validates the blurred value. -/
def handleBlur (s : FormState) (name : FieldName) (value : String) : FormState :=
  { s with
    touched := setTouchedFlag s.touched name true
    errors := setError s.errors name (validateField name value) }

/-- The error paragraph rendered for a field (`errors.f && touched.f &&
<p>{errors.f}</p>` in the JSX, e.g. lines 172–176 for the title): the
message is shown only when the stored error is truthy and the field is
touched. -/
def renderedError (s : FormState) (f : FieldName) : Option String :=
  if strTruthy (getError s.errors f) && getTouched s.touched f then getError s.errors f
  else none

/-- `handleSubmit` from `TaskForm.tsx` (lines 103–134).  The `flushSync`
block applies the touched-set and error-set updates as one visible update,
so the whole handler is one transition.  The second component is the
payload passed to `onSubmit` (`none` when the callback is not invoked). -/
def handleSubmit (initialTitle : Option String) (s : FormState) :
    FormState × Option TaskFormData :=
  let validation := validateForm s.formData
  let flushed : FormState :=
    { s with
      touched := { title := true, description := true, priority := true }
      errors := validation.errors }
  if !validation.isValid then
    (flushed, none)
  else if !(strTruthy initialTitle) then
    ({ formData := { title := "", description := "", priority := "medium" }
       touched := {}
       errors := {} }, some s.formData)
  else
    (flushed, some s.formData)

/-- The post-reset state reached after a successful create-mode submission:
default field values, no touched flags, no errors. -/
def resetFormState : FormState :=
  { formData := { title := "", description := "", priority := "medium" }
    touched := {}
    errors := {} }

/-- C2: on submit, if any field fails validation the creation callback is
not invoked and the fresh validation errors are stored; if all fields pass,
the callback is invoked exactly once with exactly the current field values
(title and description as typed, priority as selected). -/
theorem handleSubmit_protocol (initialTitle : Option String) (s : FormState) :
    ((validateForm s.formData).isValid = false →
      (handleSubmit initialTitle s).2 = none ∧
      (handleSubmit initialTitle s).1.errors = (validateForm s.formData).errors) ∧
    ((validateForm s.formData).isValid = true →
      (handleSubmit initialTitle s).2 = some s.formData) := by
  constructor
  · intro h; simp [handleSubmit, h]
  · intro h
    by_cases ht : strTruthy initialTitle <;> simp [handleSubmit, h, ht]

/-- Witness for `handleSubmit_protocol` at a concrete invalid state and a
concrete valid state. -/
theorem handleSubmit_protocol_witness :
    (handleSubmit none ⟨⟨"", "", "medium"⟩, {}, {}⟩).2 = none ∧
    (handleSubmit none ⟨⟨"abc", "", "medium"⟩, {}, {}⟩).2 =
      some ⟨"abc", "", "medium"⟩ := by
  refine ⟨((handleSubmit_protocol none ⟨⟨"", "", "medium"⟩, {}, {}⟩).1 (by decide)).1, ?_⟩
  exact (handleSubmit_protocol none ⟨⟨"abc", "", "medium"⟩, {}, {}⟩).2 (by decide)

/-- C3: after a submit with invalid data, the single post-`flushSync` state
already has all three fields marked touched and carries the full new error
mapping; the `flushSync` block commits both updates as one observable
update, which the model reflects by producing exactly one post-state. -/
theorem handleSubmit_invalid_atomic (initialTitle : Option String) (s : FormState)
    (h : (validateForm s.formData).isValid = false) :
    (handleSubmit initialTitle s).1.touched = ⟨true, true, true⟩ ∧
    (handleSubmit initialTitle s).1.errors = (validateForm s.formData).errors := by
  simp [handleSubmit, h]

/-- Witness for `handleSubmit_invalid_atomic` at the empty form. -/
theorem handleSubmit_invalid_atomic_witness :
    (handleSubmit none ⟨⟨"", "", "medium"⟩, {}, {}⟩).1.touched = ⟨true, true, true⟩ ∧
    (handleSubmit none ⟨⟨"", "", "medium"⟩, {}, {}⟩).1.errors =
      (validateForm ⟨"", "", "medium"⟩).errors :=
  handleSubmit_invalid_atomic none ⟨⟨"", "", "medium"⟩, {}, {}⟩ (by decide)

/-- C4: in every form state (reachable or not), no error is rendered for a
field whose touched flag is false, regardless of the field's validity: the
JSX guard `errors.f && touched.f` suppresses the message. -/
theorem untouched_field_renders_no_error (s : FormState) (f : FieldName)
    (h : getTouched s.touched f = false) : renderedError s f = none := by
  unfold renderedError
  rw [h]
  simp

/-- Witness for `untouched_field_renders_no_error`: an untouched title with
an invalid stored error is still not rendered. -/
theorem untouched_field_renders_no_error_witness :
    renderedError ⟨⟨"", "", "medium"⟩, ⟨some "Title is required", none, none⟩, {}⟩
      .title = none :=
  untouched_field_renders_no_error
    ⟨⟨"", "", "medium"⟩, ⟨some "Title is required", none, none⟩, {}⟩ .title (by decide)

/-- C5: after a successful submit, create mode (no truthy seed title)
resets field values to the defaults and clears touched flags and errors,
while edit mode (a truthy seed title) leaves the state exactly as the
flushed submit state: values as typed, with the reset step skipped. -/
theorem handleSubmit_success_reset (initialTitle : Option String) (s : FormState)
    (h : (validateForm s.formData).isValid = true) :
    (strTruthy initialTitle = false →
      (handleSubmit initialTitle s).1 = resetFormState) ∧
    (strTruthy initialTitle = true →
      (handleSubmit initialTitle s).1.formData = s.formData ∧
      (handleSubmit initialTitle s).1 =
        { s with
          touched := ⟨true, true, true⟩
          errors := (validateForm s.formData).errors }) := by
  constructor
  · intro ht; simp [handleSubmit, resetFormState, h, ht]
  · intro ht; simp [handleSubmit, h, ht]

/-- Witness for `handleSubmit_success_reset`: a valid form resets in create
mode and keeps its values in edit mode. -/
theorem handleSubmit_success_reset_witness :
    (handleSubmit none ⟨⟨"abc", "", "medium"⟩, {}, {}⟩).1 = resetFormState ∧
    (handleSubmit (some "seed") ⟨⟨"abc", "", "medium"⟩, {}, {}⟩).1.formData =
      ⟨"abc", "", "medium"⟩ := by
  refine ⟨(handleSubmit_success_reset none ⟨⟨"abc", "", "medium"⟩, {}, {}⟩
    (by decide)).1 (by decide), ?_⟩
  exact ((handleSubmit_success_reset (some "seed") ⟨⟨"abc", "", "medium"⟩, {}, {}⟩
    (by decide)).2 (by decide)).1

/-- C10: create versus edit mode is decided by the truthiness of
`initialData.title`, not by whether `initialData` was supplied: an omitted
seed and an empty-string seed both reset after a successful submit, while
any non-empty seed title suppresses the reset. -/
theorem create_mode_is_truthiness (s : FormState) (t : String)
    (hv : (validateForm s.formData).isValid = true) (ht : t ≠ "") :
    (handleSubmit none s).1 = resetFormState ∧
    (handleSubmit (some "") s).1 = resetFormState ∧
    (handleSubmit (some t) s).1 =
      { s with
        touched := ⟨true, true, true⟩
        errors := (validateForm s.formData).errors } := by
  have htt : strTruthy (some t) = true := by
    unfold strTruthy
    simp [ht]
  refine ⟨(handleSubmit_success_reset none s hv).1 rfl,
    (handleSubmit_success_reset (some "") s hv).1 rfl,
    ((handleSubmit_success_reset (some t) s hv).2 htt).2⟩

/-- Witness for `create_mode_is_truthiness` at a concrete valid state. -/
theorem create_mode_is_truthiness_witness :
    (handleSubmit none ⟨⟨"abcd", "", "low"⟩, {}, {}⟩).1 = resetFormState ∧
    (handleSubmit (some "") ⟨⟨"abcd", "", "low"⟩, {}, {}⟩).1 = resetFormState ∧
    (handleSubmit (some "x") ⟨⟨"abcd", "", "low"⟩, {}, {}⟩).1 =
      { formData := ⟨"abcd", "", "low"⟩
        touched := ⟨true, true, true⟩
        errors := (validateForm ⟨"abcd", "", "low"⟩).errors } :=
  create_mode_is_truthiness ⟨⟨"abcd", "", "low"⟩, {}, {}⟩ "x" (by decide) (by decide)

/-- The task record, from `Task` in `src/src/types/Task.ts`.  `Date` values
are modelled as `Nat` timestamps; the optional `description` is an
`Option String`. -/
structure Task where
  id : String
  title : String
  description : Option String
  completed : Bool
  priority : String
  createdAt : Nat
  updatedAt : Nat
  deriving Repr, DecidableEq

/-- `handleCreateTask` from `page.tsx` (lines 12–30) and `TestRunner.tsx`
(lines 37–49): builds the new task with id `task-` followed by the decimal
timestamp, `completed = false`, `createdAt = updatedAt = now`, the payload
fields, and prepends it to the collection.  The single `now` parameter
models the instant at which the synchronous creation block runs. -/
def handleCreateTask (now : Nat) (taskData : TaskFormData) (tasks : List Task) : List Task :=
  { id := "task-" ++ Nat.repr now
    title := taskData.title
    description := some taskData.description
    completed := false
    priority := taskData.priority
    createdAt := now
    updatedAt := now } :: tasks

/-- `handleToggleComplete` from `page.tsx` (lines 32–40) and
`TestRunner.tsx` (lines 428–436): maps over the collection, rebuilding the
matching task with `completed` flipped and `updatedAt` set to now. -/
def handleToggleComplete (now : Nat) (taskId : String) (tasks : List Task) : List Task :=
  tasks.map fun task =>
    if task.id == taskId then { task with completed := !task.completed, updatedAt := now }
    else task

/-- `handleDeleteTask` from `page.tsx` (lines 42–44): keeps exactly the
tasks whose id differs from the target. -/
def handleDeleteTask (taskId : String) (tasks : List Task) : List Task :=
  tasks.filter fun task => task.id != taskId

/-- C6: toggling flips `completed` and sets `updatedAt` for every position
holding the matching id, leaving that task's other fields unchanged (the
`{ t with ... }` update names exactly the two modified fields); every
non-matching task is unchanged, and the rebuilt task is a genuinely new
value, distinct from the old one. -/
theorem handleToggleComplete_frame (now : Nat) (taskId : String) (tasks : List Task) :
    (handleToggleComplete now taskId tasks).length = tasks.length ∧
    ∀ (i : Nat) (t : Task), tasks[i]? = some t →
      (t.id ≠ taskId → (handleToggleComplete now taskId tasks)[i]? = some t) ∧
      (t.id = taskId →
        (handleToggleComplete now taskId tasks)[i]? =
          some { t with completed := !t.completed, updatedAt := now } ∧
        { t with completed := !t.completed, updatedAt := now } ≠ t) := by
  refine ⟨List.length_map _ _, ?_⟩
  intro i t ht
  constructor
  · intro hne
    simp [handleToggleComplete, ht, hne]
  · intro heq
    refine ⟨by simp [handleToggleComplete, ht, heq], ?_⟩
    intro hcontra
    have := congrArg Task.completed hcontra
    simp at this

/-- Witness for `handleToggleComplete_frame`: a two-task collection where
only the matching task is toggled. -/
theorem handleToggleComplete_frame_witness :
    (handleToggleComplete 9 "a" [⟨"a", "t", none, false, "low", 1, 1⟩,
        ⟨"b", "u", none, true, "high", 2, 2⟩])[0]? =
      some ⟨"a", "t", none, true, "low", 1, 9⟩ ∧
    (handleToggleComplete 9 "a" [⟨"a", "t", none, false, "low", 1, 1⟩,
        ⟨"b", "u", none, true, "high", 2, 2⟩])[1]? =
      some ⟨"b", "u", none, true, "high", 2, 2⟩ := by
  refine ⟨((handleToggleComplete_frame 9 "a" _).2 0
    ⟨"a", "t", none, false, "low", 1, 1⟩ rfl).2 rfl |>.1, ?_⟩
  exact ((handleToggleComplete_frame 9 "a"
    [⟨"a", "t", none, false, "low", 1, 1⟩, ⟨"b", "u", none, true, "high", 2, 2⟩]).2 1
    ⟨"b", "u", none, true, "high", 2, 2⟩ rfl).1 (by decide)

/-- C7: deletion preserves the relative order of survivors (the result is a
sublist of the input); deleting an id that occurs in no task is the
identity; and membership in the result is exactly membership in the input
with a non-matching id. -/
theorem handleDeleteTask_spec (taskId : String) (tasks : List Task) :
    List.Sublist (handleDeleteTask taskId tasks) tasks ∧
    ((∀ t ∈ tasks, t.id ≠ taskId) → handleDeleteTask taskId tasks = tasks) ∧
    (∀ t, t ∈ handleDeleteTask taskId tasks ↔ t ∈ tasks ∧ t.id ≠ taskId) := by
  refine ⟨List.filter_sublist tasks, ?_, ?_⟩
  · intro h
    apply List.filter_eq_self.2
    intro t htm
    simpa using h t htm
  · intro t
    simp [handleDeleteTask]

/-- Witness for `handleDeleteTask_spec`: deleting an absent id is the
identity on a concrete collection. -/
theorem handleDeleteTask_spec_witness :
    handleDeleteTask "zzz" [⟨"a", "t", none, false, "low", 1, 1⟩] =
      [⟨"a", "t", none, false, "low", 1, 1⟩] :=
  (handleDeleteTask_spec "zzz" [⟨"a", "t", none, false, "low", 1, 1⟩]).2.1 (by decide)

/-- Numeric value of a decimal digit character. -/
def digitVal (c : Char) : Nat := c.toNat - 48

/-- Value of a decimal digit string, most significant digit first; the
left inverse used to show that the container's `task-` plus decimal
timestamp id determines the timestamp. -/
def decodeDigits : List Char → Nat
  | [] => 0
  | c :: cs => digitVal c * 10 ^ cs.length + decodeDigits cs

theorem digitVal_digitChar (d : Nat) (h : d < 10) :
    digitVal (Nat.digitChar d) = d := by
  interval_cases d <;> rfl

theorem decodeDigits_toDigitsCore (fuel : Nat) :
    ∀ (n : Nat) (acc : List Char), n < fuel →
      decodeDigits (Nat.toDigitsCore 10 fuel n acc) =
        n * 10 ^ acc.length + decodeDigits acc := by
  induction fuel with
  | zero => intro n acc h; omega
  | succ f ih =>
    intro n acc h
    unfold Nat.toDigitsCore
    by_cases h0 : n / 10 = 0
    · have hn : n < 10 := by omega
      simp only [h0, if_true, decodeDigits]
      rw [digitVal_digitChar (n % 10) (by omega), Nat.mod_eq_of_lt hn]
    · simp only [h0, if_false]
      have hlt : n / 10 < f := by omega
      calc decodeDigits (Nat.toDigitsCore 10 f (n / 10) (Nat.digitChar (n % 10) :: acc))
          = n / 10 * 10 ^ (Nat.digitChar (n % 10) :: acc).length +
            decodeDigits (Nat.digitChar (n % 10) :: acc) := ih (n / 10) _ hlt
        _ = n / 10 * 10 ^ (acc.length + 1) +
            (n % 10 * 10 ^ acc.length + decodeDigits acc) := by
            rw [List.length_cons, decodeDigits, digitVal_digitChar (n % 10) (by omega)]
        _ = (10 * (n / 10) + n % 10) * 10 ^ acc.length + decodeDigits acc := by ring
        _ = n * 10 ^ acc.length + decodeDigits acc := by rw [Nat.div_add_mod]

theorem decodeDigits_repr (n : Nat) : decodeDigits (Nat.repr n).data = n := by
  have h := decodeDigits_toDigitsCore (n + 1) n [] (Nat.lt_succ_self n)
  simpa [Nat.repr, Nat.toDigits, decodeDigits] using h

/-- The decimal numeral of a natural number determines it. -/
theorem repr_injective {m n : Nat} (h : Nat.repr m = Nat.repr n) : m = n := by
  have h2 := congrArg (fun s => decodeDigits s.data) h
  simpa [decodeDigits_repr] using h2

/-- The `task-` plus decimal timestamp id determines the timestamp, so
creation instants with different timestamps yield different ids. -/
theorem taskId_injective {m n : Nat}
    (h : "task-" ++ Nat.repr m = "task-" ++ Nat.repr n) : m = n := by
  apply repr_injective
  apply String.ext
  have e : ∀ s : String, ("task-" ++ s).data.drop 5 = s.data := fun _ => rfl
  have h2 : ("task-" ++ Nat.repr m).data.drop 5 = ("task-" ++ Nat.repr n).data.drop 5 := by
    rw [h]
  rw [e, e] at h2
  exact h2

/-- The payload used in the collision counterexample, from the
`form-submit-valid` scenario of `TestRunner.tsx`. -/
def sampleFormData : TaskFormData :=
  { title := "Test Task Visual", description := "Descripcion de prueba", priority := "high" }

/-- C8 counterexample: two creations at the same clock reading (`Date.now()`
returning 5 twice) produce two distinct tasks carrying the identical id
`task-5`, so the new task's id is not distinct from every other created
task's id. -/
theorem handleCreateTask_id_collision :
    ((handleCreateTask 5 sampleFormData (handleCreateTask 5 sampleFormData [])).map
      Task.id) = ["task-5", "task-5"] ∧
    (handleCreateTask 5 sampleFormData (handleCreateTask 5 sampleFormData [])).length = 2 := by
  exact ⟨rfl, rfl⟩

/-- C8 as amended: the created task is prepended to the front with
`createdAt = updatedAt = now`, `completed = false`, the submitted title,
description and priority, and id `task-` plus the decimal timestamp — an id
distinct from that of every other created task whose creation timestamp
differs (uniqueness holds only up to timestamp collisions). -/
theorem handleCreateTask_spec (now : Nat) (taskData : TaskFormData) (tasks : List Task) :
    (handleCreateTask now taskData tasks).tail = tasks ∧
    ∀ newTask : Task, (handleCreateTask now taskData tasks)[0]? = some newTask →
      newTask.title = taskData.title ∧
      newTask.description = some taskData.description ∧
      newTask.priority = taskData.priority ∧
      newTask.completed = false ∧
      newTask.createdAt = now ∧
      newTask.updatedAt = now ∧
      newTask.createdAt = newTask.updatedAt ∧
      newTask.id = "task-" ++ Nat.repr now ∧
      ∀ t ∈ tasks, t.createdAt ≠ now → t.id = "task-" ++ Nat.repr t.createdAt →
        newTask.id ≠ t.id := by
  refine ⟨rfl, ?_⟩
  intro newTask hget
  have hnew : newTask = ⟨"task-" ++ Nat.repr now, taskData.title,
      some taskData.description, false, taskData.priority, now, now⟩ := by
    simpa [handleCreateTask] using hget.symm
  subst hnew
  refine ⟨rfl, rfl, rfl, rfl, rfl, rfl, rfl, rfl, ?_⟩
  intro t _ hts hid hcontra
  exact hts (taskId_injective (hcontra.trans hid)).symm

/-- Witness for `handleCreateTask_spec`: creating into a collection holding
an older created task yields the expected fresh task with a distinct id. -/
theorem handleCreateTask_spec_witness :
    (handleCreateTask 7 sampleFormData
      [⟨"task-3", "old", none, false, "low", 3, 3⟩]).tail =
        [⟨"task-3", "old", none, false, "low", 3, 3⟩] ∧
    ("task-" ++ Nat.repr 7) ≠ "task-3" := by
  have h := (handleCreateTask_spec 7 sampleFormData
    [⟨"task-3", "old", none, false, "low", 3, 3⟩]).2
    ⟨"task-" ++ Nat.repr 7, "Test Task Visual", some "Descripcion de prueba",
      false, "high", 7, 7⟩ (by decide)
  refine ⟨(handleCreateTask_spec 7 sampleFormData
    [⟨"task-3", "old", none, false, "low", 3, 3⟩]).1, ?_⟩
  exact h.2.2.2.2.2.2.2.2 ⟨"task-3", "old", none, false, "low", 3, 3⟩
    (by decide) (by decide) (by decide)

/-- A scenario outcome, from `TestResult` in `TestRunner.tsx` (the optional
diagnostic detail string plays no role in the run-all protocol and is
omitted). -/
structure TestResult where
  passed : Bool
  message : String
  deriving Repr, DecidableEq

/-- A test scenario: its id together with the outcome of its `execute`
function — either a returned result or a thrown exception's description. -/
structure TestCase where
  id : String
  execute : Except String TestResult
  deriving Repr

/-- `runAllTests` from `TestRunner.tsx` (lines 475–505): the `for` loop
visits the scenarios one at a time in declaration order; each execution is
wrapped in its own try/catch, a thrown error being converted into a failed
result whose message carries the error's description, after which the loop
continues with the next scenario. -/
def runAllTests (testCases : List TestCase) : List (String × TestResult) :=
  testCases.map fun tc =>
    match tc.execute with
    | .ok r => (tc.id, r)
    | .error e => (tc.id, { passed := false, message := "Error: " ++ e })

/-- C9: a run-all execution records one result per scenario, in declaration
order; a scenario that returns a result records it unchanged, and a
scenario that throws records a failed result carrying the error's message —
in either case the outcome at position `i` depends only on scenario `i`, so
one scenario's failure never prevents a later scenario from recording its
own result. -/
theorem runAllTests_isolated (testCases : List TestCase) :
    (runAllTests testCases).map Prod.fst = testCases.map TestCase.id ∧
    ∀ (i : Nat) (tc : TestCase), testCases[i]? = some tc →
      (∀ r : TestResult, tc.execute = .ok r →
        (runAllTests testCases)[i]? = some (tc.id, r)) ∧
      (∀ e : String, tc.execute = .error e →
        (runAllTests testCases)[i]? = some (tc.id, ⟨false, "Error: " ++ e⟩)) := by
  constructor
  · rw [runAllTests, List.map_map]
    apply List.map_congr_left
    intro tc _
    cases h : tc.execute <;> simp [h]
  · intro i tc h
    constructor <;> intro x hx <;> simp [runAllTests, h, hx]

/-- Witness for `runAllTests_isolated`: a throwing first scenario is
recorded as failed with the error message while the second scenario still
records its passing result. -/
theorem runAllTests_isolated_witness :
    (runAllTests [⟨"a", .error "boom"⟩, ⟨"b", .ok ⟨true, "fine"⟩⟩])[0]? =
      some ("a", ⟨false, "Error: boom"⟩) ∧
    (runAllTests [⟨"a", .error "boom"⟩, ⟨"b", .ok ⟨true, "fine"⟩⟩])[1]? =
      some ("b", ⟨true, "fine"⟩) := by
  refine ⟨((runAllTests_isolated
    [⟨"a", .error "boom"⟩, ⟨"b", .ok ⟨true, "fine"⟩⟩]).2 0
      ⟨"a", .error "boom"⟩ rfl).2 "boom" rfl, ?_⟩
  exact ((runAllTests_isolated
    [⟨"a", .error "boom"⟩, ⟨"b", .ok ⟨true, "fine"⟩⟩]).2 1
      ⟨"b", .ok ⟨true, "fine"⟩⟩ rfl).1 ⟨true, "fine"⟩ rfl

end Sqa
